import Mathlib

/-!
Verification of the CD4 fitter backend (`solver_simplex.py`).

The backend has three functions:

* `get_sample_dist_values tmean tsd upper init_step step_sz` — computes the
  cumulative probabilities `p_less_than_zero = norm.cdf 0` and
  `p_greater_than_limit = norm.cdf upper` under `Normal(tmean, tsd)`, builds the
  grid `numpy.arange(start_sample, 1, step_sz)` with
  `start_sample = p_less_than_zero + init_step * (p_greater_than_limit - p_less_than_zero)`,
  maps the grid through `norm.ppf`, squares, and returns the mean and the
  (population) standard deviation of the squared values.
* `obj_fcn params target_mean target_sd upper_limit` — the L1 discrepancy
  between the target moments and the estimated moments.
* `cd4_fitter` — wraps `scipy.optimize.minimize` (Nelder-Mead) around
  `obj_fcn`, with initial guess `(sqrt target_mean, sqrt target_sd)` and both
  parameters bounded below by `0 + bounds_residue`.

The embedding works over `ℚ`.  The external numeric primitives
(`scipy.stats.norm.cdf`, `scipy.stats.norm.ppf`, square root) are abstracted
into a `Model` record; theorems that need analytic facts about the normal
distribution (monotonicity of the quantile function, inverse relationship with
the CDF, range of the CDF) take them as explicit hypotheses on the model.
The external minimizer `scipy.optimize.minimize` is likewise abstracted as a
function from a problem record (objective, initial point, bounds, method,
tolerances) to an optimizer result; facts about it (e.g. that the bounded
Nelder-Mead implementation returns a point within the bounds) are hypotheses.

A second, `Except`-valued copy of the pipeline (`get_sample_dist_valuesE`,
`obj_fcnE`, `cd4_fitterE`) embeds the same source code as fallible
computations: every call into a numeric primitive is sequenced with `bind` and
no handler is ever installed, mirroring the absence of any `try/except` in the
Python source.  It is used for the error-propagation claims.
-/

namespace CD4

/-- Abstract interface for the numeric primitives used by the solver:
`cdf x loc scale` embeds `scipy.stats.norm.cdf(x, loc, scale)`,
`ppf p loc scale` embeds `scipy.stats.norm.ppf(p, loc, scale)`, and
`sqrt` embeds the real square root used by `numpy.sqrt` / `numpy.std`. -/
structure Model where
  cdf : ℚ → ℚ → ℚ → ℚ
  ppf : ℚ → ℚ → ℚ → ℚ
  sqrt : ℚ → ℚ

/-- `numpy.arange start stop step` (for positive `step`): the list of points
`start + k * step` for `0 ≤ k < ⌈(stop - start) / step⌉`. -/
def arange (start stop step : ℚ) : List ℚ :=
  (List.range (⌈(stop - start) / step⌉).toNat).map (fun k : ℕ => start + (k : ℚ) * step)

/-- `numpy.mean` of a list of rationals. -/
def listMean (l : List ℚ) : ℚ := l.sum / l.length

/-- Population variance of a list; `numpy.std` (with its default `ddof = 0`)
is the square root of this. -/
def listVar (l : List ℚ) : ℚ :=
  listMean (l.map (fun x => (x - listMean l) * (x - listMean l)))

/-- Embedding of `get_sample_dist_values(tmean, tsd, upper, init_step, step_sz)`
(`solver_simplex.py`, lines 17-77; the Python defaults are
`init_step = 0.00005 = 1/20000` and `step_sz = 0.0001 = 1/10000`, passed
explicitly here).  The `debug` branch of the source is dead code
(`debug = False`) and is not modelled. -/
def get_sample_dist_values (M : Model) (tmean tsd upper init_step step_sz : ℚ) : ℚ × ℚ :=
  let p_less_than_zero := M.cdf 0 tmean tsd
  let p_greater_than_limit := M.cdf upper tmean tsd
  let p_truncated_region := p_greater_than_limit - p_less_than_zero
  let start_sample := p_less_than_zero + init_step * p_truncated_region
  let p_values := arange start_sample 1 step_sz
  let sampled_dist := p_values.map (fun p => M.ppf p tmean tsd)
  let sampled_sq := sampled_dist.map (fun x => x * x)
  (listMean sampled_sq, M.sqrt (listVar sampled_sq))

/-- Embedding of `obj_fcn(fitted_normal_params, target_mean, target_sd, upper_limit)`
(`solver_simplex.py`, lines 80-101).  The estimator is called with its default
discretization parameters, as in the source. -/
def obj_fcn (M : Model) (fitted_normal_params : ℚ × ℚ)
    (target_mean target_sd upper_limit : ℚ) : ℚ :=
  let tmean := fitted_normal_params.1
  let tsd := fitted_normal_params.2
  let r := get_sample_dist_values M tmean tsd upper_limit (1/20000) (1/10000)
  |target_mean - r.1| + |target_sd - r.2|

/-- Characterisation of the `numpy.arange` grid with `stop = 1`: for positive
`step`, the grid holds exactly the points `start + k * step` (with `k : ℕ`)
that are strictly below `1`. -/
theorem mem_arange (start step p : ℚ) (hstep : 0 < step) :
    p ∈ arange start 1 step ↔ ∃ k : ℕ, p = start + (k : ℚ) * step ∧ p < 1 := by
  have hiff : ∀ k : ℕ, k < (⌈(1 - start) / step⌉).toNat ↔ start + (k : ℚ) * step < 1 := by
    intro k
    constructor
    · intro hk
      have h2 : ((k : ℤ) : ℚ) < (1 - start) / step := Int.lt_ceil.mp (Int.lt_toNat.mp hk)
      have h2' : (k : ℚ) < (1 - start) / step := by push_cast at h2; exact h2
      have h3 := (lt_div_iff₀ hstep).mp h2'
      linarith
    · intro hk
      have h3 : (k : ℚ) * step < 1 - start := by linarith
      have h2' : (k : ℚ) < (1 - start) / step := (lt_div_iff₀ hstep).mpr h3
      have h2 : ((k : ℤ) : ℚ) < (1 - start) / step := by push_cast; exact h2'
      exact Int.lt_toNat.mpr (Int.lt_ceil.mpr h2)
  unfold arange
  constructor
  · intro hp
    rcases List.mem_map.mp hp with ⟨k, hk, hfk⟩
    refine ⟨k, hfk.symm, ?_⟩
    rw [← hfk]
    exact (hiff k).mp (List.mem_range.mp hk)
  · rintro ⟨k, rfl, hlt⟩
    exact List.mem_map.mpr ⟨k, List.mem_range.mpr ((hiff k).mpr hlt), rfl⟩

/-- A concrete instantiation of the numeric primitives, used to evaluate the
theorems below on explicit inputs: a distribution whose CDF is `x` clamped to
`[0, 1]` (so its quantile function is the identity on `[0, 1]`), with the
identity standing in for the square root. -/
def M0 : Model where
  cdf := fun x _ _ => min 1 (max 0 x)
  ppf := fun p _ _ => p
  sqrt := fun q => q

/-- C1: for positive `mean` and `sd`, `estimate(mean, sd, upper, init_step, step_size)`
computes `p_lo = CDF(0)` and `p_hi = CDF(upper)` under `Normal(mean, sd)`,
builds the evenly spaced grid of cumulative probabilities starting at
`p_lo + init_step * (p_hi - p_lo)` and stepping by `step_size` up to but not
including `1.0` (first conjunct: the grid holds exactly the points
`start + k * step_size` strictly below `1`), inverts each grid probability
through the normal quantile function, squares each resulting value, and
returns the sample mean and sample standard deviation of the squared values
(second conjunct). -/
theorem c1_estimate_grid_and_moments (M : Model) (tmean tsd upper istep ssz : ℚ)
    (_hm : 0 < tmean) (_hsd : 0 < tsd) (hstep : 0 < ssz) :
    (∀ p : ℚ,
        p ∈ arange (M.cdf 0 tmean tsd + istep * (M.cdf upper tmean tsd - M.cdf 0 tmean tsd)) 1 ssz ↔
          ∃ k : ℕ,
            p = M.cdf 0 tmean tsd + istep * (M.cdf upper tmean tsd - M.cdf 0 tmean tsd)
                  + (k : ℚ) * ssz ∧
            p < 1) ∧
    get_sample_dist_values M tmean tsd upper istep ssz =
      (listMean
          ((arange (M.cdf 0 tmean tsd + istep * (M.cdf upper tmean tsd - M.cdf 0 tmean tsd)) 1
              ssz).map (fun p => M.ppf p tmean tsd * M.ppf p tmean tsd)),
       M.sqrt (listVar
          ((arange (M.cdf 0 tmean tsd + istep * (M.cdf upper tmean tsd - M.cdf 0 tmean tsd)) 1
              ssz).map (fun p => M.ppf p tmean tsd * M.ppf p tmean tsd)))) := by
  constructor
  · intro p
    exact mem_arange _ _ p hstep
  · simp only [get_sample_dist_values, List.map_map, Function.comp_def]

/-- Witness for C1: the hypotheses and the conclusion hold at the concrete
model `M0` with `mean = sd = upper = 1`, `init_step = step_size = 1/2`. -/
theorem c1_witness :
    (0 : ℚ) < 1 ∧ (0 : ℚ) < 1/2 ∧
    ((∀ p : ℚ,
        p ∈ arange (M0.cdf 0 1 1 + 1/2 * (M0.cdf 1 1 1 - M0.cdf 0 1 1)) 1 (1/2) ↔
          ∃ k : ℕ,
            p = M0.cdf 0 1 1 + 1/2 * (M0.cdf 1 1 1 - M0.cdf 0 1 1) + (k : ℚ) * (1/2) ∧
            p < 1) ∧
    get_sample_dist_values M0 1 1 1 (1/2) (1/2) =
      (listMean
          ((arange (M0.cdf 0 1 1 + 1/2 * (M0.cdf 1 1 1 - M0.cdf 0 1 1)) 1
              (1/2)).map (fun p => M0.ppf p 1 1 * M0.ppf p 1 1)),
       M0.sqrt (listVar
          ((arange (M0.cdf 0 1 1 + 1/2 * (M0.cdf 1 1 1 - M0.cdf 0 1 1)) 1
              (1/2)).map (fun p => M0.ppf p 1 1 * M0.ppf p 1 1))))) :=
  ⟨by norm_num, by norm_num,
    c1_estimate_grid_and_moments M0 1 1 1 (1/2) (1/2) (by norm_num) (by norm_num) (by norm_num)⟩

/-- C2: `objective(params, target_mean, target_sd, upper)` equals
`|target_mean - est_mean| + |target_sd - est_sd|` where `(est_mean, est_sd)`
is `estimate(mean, sd, upper)` with the default discretization parameters
(`init_step = 1/20000`, `step_size = 1/10000`). -/
theorem c2_objective_is_l1_gap (M : Model) (params : ℚ × ℚ)
    (target_mean target_sd upper : ℚ) :
    obj_fcn M params target_mean target_sd upper =
      |target_mean - (get_sample_dist_values M params.1 params.2 upper (1/20000) (1/10000)).1| +
      |target_sd - (get_sample_dist_values M params.1 params.2 upper (1/20000) (1/10000)).2| :=
  rfl

/-- C10: the truncation ceiling influences the estimator only through the
scalar `CDF(upper)`: if two uppers have the same CDF value under
`Normal(mean, sd)`, the estimator returns identical results for them. -/
theorem c10_upper_only_through_cdf (M : Model) (tmean tsd u1 u2 istep ssz : ℚ)
    (_hm : 0 < tmean) (_hsd : 0 < tsd)
    (h : M.cdf u1 tmean tsd = M.cdf u2 tmean tsd) :
    get_sample_dist_values M tmean tsd u1 istep ssz =
      get_sample_dist_values M tmean tsd u2 istep ssz := by
  unfold get_sample_dist_values
  rw [h]

/-- Witness for C10 at `M0` with `mean = sd = 1` and the uppers `2` and `3`
(the clamped CDF assigns both the value `1`). -/
theorem c10_witness :
    (0 : ℚ) < 1 ∧ M0.cdf 2 1 1 = M0.cdf 3 1 1 ∧
    get_sample_dist_values M0 1 1 2 (1/2) (1/2) =
      get_sample_dist_values M0 1 1 3 (1/2) (1/2) :=
  ⟨by norm_num, by norm_num [M0],
    c10_upper_only_through_cdf M0 1 1 2 3 (1/2) (1/2) (by norm_num) (by norm_num)
      (by norm_num [M0])⟩

/-- C3 is false as stated: at `M0` with `mean = sd = 1`, `upper = 1/2` and the
default discretization parameters, `p_lo = CDF(0) = 0` and
`p_hi = CDF(1/2) = 1/2`, yet the grid contains the cumulative probability
`20001/40000`, which is not below `p_hi` (so the grid is not confined to the
truncated window `[p_lo, p_hi)`), and whose pre-squaring sampled value
`ppf(20001/40000) = 20001/40000` exceeds the truncation ceiling
`upper = 1/2`. -/
theorem c3_counterexample :
    (20001/40000 : ℚ) ∈
        arange (M0.cdf 0 1 1 + 1/20000 * (M0.cdf (1/2) 1 1 - M0.cdf 0 1 1)) 1 (1/10000) ∧
    M0.cdf (1/2) 1 1 ≤ 20001/40000 ∧
    (1/2 : ℚ) < M0.ppf (20001/40000) 1 1 := by
  refine ⟨?_, ?_, ?_⟩
  · rw [show (M0.cdf 0 1 1 + 1/20000 * (M0.cdf (1/2) 1 1 - M0.cdf 0 1 1)) = (1/40000 : ℚ) by
      norm_num [M0]]
    rw [mem_arange _ _ _ (by norm_num)]
    exact ⟨5000, by norm_num, by norm_num⟩
  · norm_num [M0]
  · norm_num [M0]

/-- C3 amended: each cumulative probability `p` in the grid built by the
estimator satisfies `p_lo ≤ p` and `p < 1` (it need not stay below `p_hi`),
so — provided the quantile function is monotone and inverts the CDF at `0` —
every sampled pre-squaring value is bounded below by `0`, while no upper bound
by `upper` holds: only the lower truncation is enforced by the grid. -/
theorem c3_amended_lower_truncation_only (M : Model) (tmean tsd upper istep ssz : ℚ)
    (_hm : 0 < tmean) (_hsd : 0 < tsd) (hstep : 0 < ssz) (histep : 0 ≤ istep)
    (hwin : M.cdf 0 tmean tsd ≤ M.cdf upper tmean tsd)
    (hmono : ∀ p q : ℚ, p ≤ q → M.ppf p tmean tsd ≤ M.ppf q tmean tsd)
    (hinv0 : M.ppf (M.cdf 0 tmean tsd) tmean tsd = 0) :
    ∀ p ∈ arange (M.cdf 0 tmean tsd + istep * (M.cdf upper tmean tsd - M.cdf 0 tmean tsd)) 1 ssz,
      M.cdf 0 tmean tsd ≤ p ∧ p < 1 ∧ 0 ≤ M.ppf p tmean tsd := by
  intro p hp
  rcases (mem_arange _ _ p hstep).mp hp with ⟨k, hpk, hlt⟩
  have hstart : M.cdf 0 tmean tsd ≤
      M.cdf 0 tmean tsd + istep * (M.cdf upper tmean tsd - M.cdf 0 tmean tsd) := by
    have := mul_nonneg histep (sub_nonneg.mpr hwin)
    linarith
  have hlo : M.cdf 0 tmean tsd ≤ p := by
    have hk : (0 : ℚ) ≤ (k : ℚ) * ssz := mul_nonneg (Nat.cast_nonneg k) (le_of_lt hstep)
    rw [hpk]
    linarith
  exact ⟨hlo, hlt, hinv0 ▸ hmono _ _ hlo⟩

/-- Witness for the amended C3 at `M0` with `mean = sd = upper = 1`,
`init_step = step_size = 1/2`. -/
theorem c3_amended_witness :
    (0 : ℚ) < 1 ∧ (0 : ℚ) < 1/2 ∧ (0 : ℚ) ≤ 1/2 ∧
    M0.cdf 0 1 1 ≤ M0.cdf 1 1 1 ∧
    M0.ppf (M0.cdf 0 1 1) 1 1 = 0 ∧
    (∀ p ∈ arange (M0.cdf 0 1 1 + 1/2 * (M0.cdf 1 1 1 - M0.cdf 0 1 1)) 1 (1/2),
      M0.cdf 0 1 1 ≤ p ∧ p < 1 ∧ 0 ≤ M0.ppf p 1 1) :=
  ⟨by norm_num, by norm_num, by norm_num, by norm_num [M0], by norm_num [M0],
    c3_amended_lower_truncation_only M0 1 1 1 (1/2) (1/2) (by norm_num) (by norm_num)
      (by norm_num) (by norm_num) (by norm_num [M0]) (fun p q h => h) (by norm_num [M0])⟩

/-- The result record of `scipy.optimize.minimize`: the solution point
`output.x`, the objective value at it (`output.fun`; `fun` is a Lean keyword,
so the field is called `fval`), and the convergence flag `output.success`. -/
structure OptimizeResult where
  x : ℚ × ℚ
  fval : ℚ
  success : Bool

/-- The argument record handed to `scipy.optimize.minimize` by `cd4_fitter`:
the objective closure, the initial point `x0`, the `bounds` sequence
(each entry a lower bound and an optional upper bound, `none` standing for
Python's `None`), the `method` string, and the Nelder-Mead options
`xatol`, `fatol`, `disp`. -/
structure NMProblem where
  objective : ℚ × ℚ → ℚ
  x0 : ℚ × ℚ
  bounds : (ℚ × Option ℚ) × (ℚ × Option ℚ)
  method : String
  xatol : ℚ
  fatol : ℚ
  disp : Bool

/-- The minimization problem that `cd4_fitter(target_mean, target_sd, upper_lim,
bounds_residue, xtol, ftol, display)` constructs and hands to
`scipy.optimize.minimize` (`solver_simplex.py`, lines 132-140).  The Python
defaults are `bounds_residue = 1/100000`, `xtol = ftol = 1/10000`,
`display = false`, passed explicitly here. -/
def cd4_problem (M : Model) (target_mean target_sd upper_lim bounds_residue xtol ftol : ℚ)
    (display : Bool) : NMProblem :=
  let residue := bounds_residue
  let bounds_seq := ((0 + residue, (none : Option ℚ)), (0 + residue, (none : Option ℚ)))
  let initial_guess := (M.sqrt target_mean, M.sqrt target_sd)
  { objective := fun p => obj_fcn M p target_mean target_sd upper_lim
    x0 := initial_guess
    bounds := bounds_seq
    method := "Nelder-Mead"
    xatol := xtol
    fatol := ftol
    disp := display }

/-- Embedding of `cd4_fitter` (`solver_simplex.py`, lines 104-145): the
external minimizer is abstracted as a function `minimize` from the problem
record to an optimizer result; the fitter unconditionally unpacks
`output.x`, `output.fun` and returns the 4-tuple, never inspecting
`output.success` and never installing a handler. -/
def cd4_fitter (M : Model) (minimize : NMProblem → OptimizeResult)
    (target_mean target_sd upper_lim bounds_residue xtol ftol : ℚ) (display : Bool) :
    ℚ × ℚ × ℚ × OptimizeResult :=
  let output := minimize (cd4_problem M target_mean target_sd upper_lim bounds_residue
    xtol ftol display)
  (output.x.1, output.x.2, output.fval, output)

/-- C4: `fit` starts the minimization from the initial guess
`(sqrt(target_mean), sqrt(target_sd))`, constrains both parameters to a lower
bound of `bounds_residue` with no upper bound, and minimizes the §4.2
objective by Nelder-Mead with parameter tolerance `xtol` and objective
tolerance `ftol`; the returned tuple is exactly the unpacking of the
minimizer's output on that problem. -/
theorem c4_fit_problem_setup (M : Model) (minimize : NMProblem → OptimizeResult)
    (target_mean target_sd upper_lim bounds_residue xtol ftol : ℚ) (display : Bool) :
    (cd4_problem M target_mean target_sd upper_lim bounds_residue xtol ftol display).x0 =
        (M.sqrt target_mean, M.sqrt target_sd) ∧
    (cd4_problem M target_mean target_sd upper_lim bounds_residue xtol ftol display).bounds =
        ((bounds_residue, none), (bounds_residue, none)) ∧
    (cd4_problem M target_mean target_sd upper_lim bounds_residue xtol ftol display).method =
        "Nelder-Mead" ∧
    (cd4_problem M target_mean target_sd upper_lim bounds_residue xtol ftol display).xatol =
        xtol ∧
    (cd4_problem M target_mean target_sd upper_lim bounds_residue xtol ftol display).fatol =
        ftol ∧
    (∀ p : ℚ × ℚ,
      (cd4_problem M target_mean target_sd upper_lim bounds_residue xtol ftol display).objective
          p = obj_fcn M p target_mean target_sd upper_lim) ∧
    cd4_fitter M minimize target_mean target_sd upper_lim bounds_residue xtol ftol display =
      ((minimize (cd4_problem M target_mean target_sd upper_lim bounds_residue xtol ftol
          display)).x.1,
       (minimize (cd4_problem M target_mean target_sd upper_lim bounds_residue xtol ftol
          display)).x.2,
       (minimize (cd4_problem M target_mean target_sd upper_lim bounds_residue xtol ftol
          display)).fval,
       minimize (cd4_problem M target_mean target_sd upper_lim bounds_residue xtol ftol
          display)) := by
  refine ⟨rfl, ?_, rfl, rfl, rfl, fun p => rfl, rfl⟩
  simp [cd4_problem]

/-- The contract of the bounded Nelder-Mead implementation in
`scipy.optimize.minimize`: the returned point respects the lower bounds of
the problem (the implementation clips every candidate, including the initial
guess, into the bounds box). -/
def RespectsBounds (minimize : NMProblem → OptimizeResult) : Prop :=
  ∀ P : NMProblem,
    P.bounds.1.1 ≤ (minimize P).x.1 ∧ P.bounds.2.1 ≤ (minimize P).x.2

/-- C5: whenever the fitter returns (the embedding is total, matching the
claim's restriction to non-raising runs), the returned best-fit mean and
standard deviation are strictly positive, for every minimizer that respects
the bounds and every strictly positive `bounds_residue`. -/
theorem c5_fit_returns_positive_params (M : Model) (minimize : NMProblem → OptimizeResult)
    (hmin : RespectsBounds minimize)
    (target_mean target_sd upper_lim bounds_residue xtol ftol : ℚ) (display : Bool)
    (hres : 0 < bounds_residue) :
    0 < (cd4_fitter M minimize target_mean target_sd upper_lim bounds_residue xtol ftol
          display).1 ∧
    0 < (cd4_fitter M minimize target_mean target_sd upper_lim bounds_residue xtol ftol
          display).2.1 := by
  obtain ⟨h1, h2⟩ :=
    hmin (cd4_problem M target_mean target_sd upper_lim bounds_residue xtol ftol display)
  constructor
  · refine lt_of_lt_of_le hres (le_trans ?_ h1)
    simp [cd4_problem]
  · refine lt_of_lt_of_le hres (le_trans ?_ h2)
    simp [cd4_problem]

/-- A concrete bounded minimizer used by the witnesses: it clips the initial
guess into the lower bounds, evaluates the objective there once, and reports
that point. -/
def mzClip : NMProblem → OptimizeResult := fun P =>
  let x := (max P.bounds.1.1 P.x0.1, max P.bounds.2.1 P.x0.2)
  ⟨x, P.objective x, true⟩

theorem mzClip_respects : RespectsBounds mzClip := fun _ =>
  ⟨le_max_left _ _, le_max_left _ _⟩

/-- Witness for C5 at `M0`, the clipping minimizer, targets `(1, 1, 1)` and
the Python default residue and tolerances. -/
theorem c5_witness :
    (0 : ℚ) < 1/100000 ∧
    (0 < (cd4_fitter M0 mzClip 1 1 1 (1/100000) (1/10000) (1/10000) false).1 ∧
     0 < (cd4_fitter M0 mzClip 1 1 1 (1/100000) (1/10000) (1/10000) false).2.1) :=
  ⟨by norm_num,
    c5_fit_returns_positive_params M0 mzClip mzClip_respects 1 1 1 (1/100000) (1/10000)
      (1/10000) false (by norm_num)⟩

/-- C6: both core operations are deterministic — the embedding is a pure
function of its inputs (no random number generator, no cross-call state), so
two calls of `estimate` with identical inputs agree, and two calls of `fit`
with identical target inputs yield the identical `(mean, sd, objective)`
triple. -/
theorem c6_determinism (M : Model) (minimize : NMProblem → OptimizeResult)
    (tmean tsd upper istep ssz target_mean target_sd upper_lim res xtol ftol : ℚ)
    (display : Bool) :
    get_sample_dist_values M tmean tsd upper istep ssz =
      get_sample_dist_values M tmean tsd upper istep ssz ∧
    ((cd4_fitter M minimize target_mean target_sd upper_lim res xtol ftol display).1,
     (cd4_fitter M minimize target_mean target_sd upper_lim res xtol ftol display).2.1,
     (cd4_fitter M minimize target_mean target_sd upper_lim res xtol ftol display).2.2.1) =
    ((cd4_fitter M minimize target_mean target_sd upper_lim res xtol ftol display).1,
     (cd4_fitter M minimize target_mean target_sd upper_lim res xtol ftol display).2.1,
     (cd4_fitter M minimize target_mean target_sd upper_lim res xtol ftol display).2.2.1) :=
  ⟨rfl, rfl⟩

/-- `Except`-valued interface for the numeric primitives: each call may fail
(raise), mirroring a Python runtime in which a numeric routine can raise. -/
structure EModel (ε : Type) where
  cdf : ℚ → ℚ → ℚ → Except ε ℚ
  ppf : ℚ → ℚ → ℚ → Except ε ℚ
  sqrt : ℚ → Except ε ℚ

/-- Fallible variant of the `scipy.optimize.minimize` argument record: the
objective closure may fail when evaluated. -/
structure NMProblemE (ε : Type) where
  objective : ℚ × ℚ → Except ε ℚ
  x0 : ℚ × ℚ
  bounds : (ℚ × Option ℚ) × (ℚ × Option ℚ)
  method : String
  xatol : ℚ
  fatol : ℚ
  disp : Bool

theorem except_ok_bind {ε α β : Type} (a : α) (f : α → Except ε β) :
    (Except.ok a >>= f) = f a := rfl

theorem except_error_bind {ε α β : Type} (e : ε) (f : α → Except ε β) :
    ((Except.error e : Except ε α) >>= f) = Except.error e := rfl

/-- Fallible embedding of `get_sample_dist_values`: the same straight-line
code as the pure embedding, with every call into a numeric primitive
sequenced by `bind` and no handler installed anywhere — mirroring the absence
of `try/except` in the Python source. -/
def get_sample_dist_valuesE {ε : Type} (E : EModel ε)
    (tmean tsd upper init_step step_sz : ℚ) : Except ε (ℚ × ℚ) := do
  let p_less_than_zero ← E.cdf 0 tmean tsd
  let p_greater_than_limit ← E.cdf upper tmean tsd
  let p_truncated_region := p_greater_than_limit - p_less_than_zero
  let start_sample := p_less_than_zero + init_step * p_truncated_region
  let p_values := arange start_sample 1 step_sz
  let sampled_dist ← p_values.mapM (fun p => E.ppf p tmean tsd)
  let sampled_sq := sampled_dist.map (fun x => x * x)
  let s ← E.sqrt (listVar sampled_sq)
  return (listMean sampled_sq, s)

/-- Fallible embedding of `obj_fcn`: evaluates the estimator and combines the
result; contains no handler. -/
def obj_fcnE {ε : Type} (E : EModel ε) (fitted_normal_params : ℚ × ℚ)
    (target_mean target_sd upper_limit : ℚ) : Except ε ℚ := do
  let r ← get_sample_dist_valuesE E fitted_normal_params.1 fitted_normal_params.2
    upper_limit (1/20000) (1/10000)
  return |target_mean - r.1| + |target_sd - r.2|

/-- Fallible construction of the minimization problem of `cd4_fitter`
(the initial guess computes two square roots). -/
def cd4_problemE {ε : Type} (E : EModel ε)
    (target_mean target_sd upper_lim bounds_residue xtol ftol : ℚ) (display : Bool) :
    Except ε (NMProblemE ε) := do
  let g1 ← E.sqrt target_mean
  let g2 ← E.sqrt target_sd
  return { objective := fun p => obj_fcnE E p target_mean target_sd upper_lim
           x0 := (g1, g2)
           bounds := ((0 + bounds_residue, (none : Option ℚ)),
                      (0 + bounds_residue, (none : Option ℚ)))
           method := "Nelder-Mead"
           xatol := xtol
           fatol := ftol
           disp := display }

/-- Fallible embedding of `cd4_fitter`: builds the problem, runs the (itself
fallible) minimizer, and unconditionally unpacks the result; contains no
handler, no retry, and no inspection of the success flag. -/
def cd4_fitterE {ε : Type} (E : EModel ε)
    (minimize : NMProblemE ε → Except ε OptimizeResult)
    (target_mean target_sd upper_lim bounds_residue xtol ftol : ℚ) (display : Bool) :
    Except ε (ℚ × ℚ × ℚ × OptimizeResult) := do
  let P ← cd4_problemE E target_mean target_sd upper_lim bounds_residue xtol ftol display
  let output ← minimize P
  return (output.x.1, output.x.2, output.fval, output)

/-- C7: if the minimizer completes with a result whose success flag is false
(budget exhausted without meeting the tolerances), `fit` still returns the
4-tuple carrying that best candidate — with the false success flag in the
diagnostics — rather than raising. -/
theorem c7_nonconvergence_soft (ε : Type) (E : EModel ε)
    (minimize : NMProblemE ε → Except ε OptimizeResult)
    (target_mean target_sd upper_lim bounds_residue xtol ftol : ℚ) (display : Bool)
    (P : NMProblemE ε) (r : OptimizeResult)
    (hP : cd4_problemE E target_mean target_sd upper_lim bounds_residue xtol ftol display =
      Except.ok P)
    (hmz : minimize P = Except.ok r)
    (hs : r.success = false) :
    cd4_fitterE E minimize target_mean target_sd upper_lim bounds_residue xtol ftol display =
      Except.ok (r.x.1, r.x.2, r.fval, r) ∧ r.success = false := by
  constructor
  · unfold cd4_fitterE
    rw [hP, except_ok_bind, hmz, except_ok_bind]
    rfl
  · exact hs

/-- C8: no recovery anywhere.  First conjunct: a failure inside the estimator
propagates unmodified through the objective.  Second conjunct: a failure of
the minimization run (which is where the objective is evaluated) propagates
unmodified through `fit`, with no partial result returned. -/
theorem c8_error_propagation (ε : Type) (E : EModel ε)
    (minimize : NMProblemE ε → Except ε OptimizeResult)
    (params : ℚ × ℚ) (target_mean target_sd upper_lim bounds_residue xtol ftol : ℚ)
    (display : Bool) (e : ε) :
    (get_sample_dist_valuesE E params.1 params.2 upper_lim (1/20000) (1/10000) =
        Except.error e →
      obj_fcnE E params target_mean target_sd upper_lim = Except.error e) ∧
    (∀ P : NMProblemE ε,
      cd4_problemE E target_mean target_sd upper_lim bounds_residue xtol ftol display =
          Except.ok P →
      minimize P = Except.error e →
      cd4_fitterE E minimize target_mean target_sd upper_lim bounds_residue xtol ftol
          display = Except.error e) := by
  constructor
  · intro h
    unfold obj_fcnE
    rw [h, except_error_bind]
  · intro P hP hmz
    unfold cd4_fitterE
    rw [hP, except_ok_bind, hmz, except_error_bind]

/-- Boolean test that an `Except` computation completed with a value. -/
def isOkE {ε α : Type} : Except ε α → Bool
  | Except.ok _ => true
  | Except.error _ => false

/-- A model whose primitives are total: every call completes with a value.
This matches the actual behaviour of `scipy.stats.norm.cdf`, `norm.ppf` and
`numpy.sqrt` on the (finite, in-domain) arguments arising from the degenerate
call `fit(0, 0, 0)`: those routines return floats rather than raising. -/
def TotalModel {ε : Type} (E : EModel ε) : Prop :=
  (∀ x loc scale : ℚ, ∃ v, E.cdf x loc scale = Except.ok v) ∧
  (∀ p loc scale : ℚ, ∃ v, E.ppf p loc scale = Except.ok v) ∧
  (∀ q : ℚ, ∃ v, E.sqrt q = Except.ok v)

theorem mapM_ok_of_forall_ok {ε : Type} (f : ℚ → Except ε ℚ)
    (hf : ∀ a : ℚ, ∃ v, f a = Except.ok v) :
    ∀ l : List ℚ, ∃ w, l.mapM f = Except.ok w := by
  intro l
  induction l with
  | nil => exact ⟨[], rfl⟩
  | cons a t ih =>
    rcases hf a with ⟨v, hv⟩
    rcases ih with ⟨w, hw⟩
    refine ⟨v :: w, ?_⟩
    rw [List.mapM_cons, hv, except_ok_bind, hw, except_ok_bind]
    rfl

theorem getE_ok_of_total {ε : Type} (E : EModel ε) (hE : TotalModel E)
    (tmean tsd upper istep ssz : ℚ) :
    ∃ v, get_sample_dist_valuesE E tmean tsd upper istep ssz = Except.ok v := by
  obtain ⟨hcdf, hppf, hsqrt⟩ := hE
  obtain ⟨a, ha⟩ := hcdf 0 tmean tsd
  obtain ⟨b, hb⟩ := hcdf upper tmean tsd
  obtain ⟨w, hw⟩ := mapM_ok_of_forall_ok (fun p => E.ppf p tmean tsd)
    (fun p => hppf p tmean tsd) (arange (a + istep * (b - a)) 1 ssz)
  obtain ⟨s, hs⟩ := hsqrt (listVar (w.map (fun x => x * x)))
  refine ⟨(listMean (w.map (fun x => x * x)), s), ?_⟩
  unfold get_sample_dist_valuesE
  rw [ha, except_ok_bind, hb, except_ok_bind]
  simp only [hw, except_ok_bind, hs]
  rfl

theorem objE_ok_of_total {ε : Type} (E : EModel ε) (hE : TotalModel E)
    (params : ℚ × ℚ) (target_mean target_sd upper_lim : ℚ) :
    ∃ v, obj_fcnE E params target_mean target_sd upper_lim = Except.ok v := by
  obtain ⟨r, hr⟩ := getE_ok_of_total E hE params.1 params.2 upper_lim (1/20000) (1/10000)
  refine ⟨|target_mean - r.1| + |target_sd - r.2|, ?_⟩
  unfold obj_fcnE
  rw [hr, except_ok_bind]
  rfl

theorem fitterE_ok_of_total {ε : Type} (E : EModel ε)
    (minimize : NMProblemE ε → Except ε OptimizeResult)
    (hE : TotalModel E)
    (hmin : ∀ P : NMProblemE ε, (∀ x, ∃ v, P.objective x = Except.ok v) →
      ∃ r, minimize P = Except.ok r)
    (target_mean target_sd upper_lim bounds_residue xtol ftol : ℚ) (display : Bool) :
    ∃ out, cd4_fitterE E minimize target_mean target_sd upper_lim bounds_residue xtol ftol
      display = Except.ok out := by
  obtain ⟨g1, hg1⟩ := hE.2.2 target_mean
  obtain ⟨g2, hg2⟩ := hE.2.2 target_sd
  have hP : cd4_problemE E target_mean target_sd upper_lim bounds_residue xtol ftol display =
      Except.ok
        { objective := fun p => obj_fcnE E p target_mean target_sd upper_lim
          x0 := (g1, g2)
          bounds := ((0 + bounds_residue, (none : Option ℚ)),
                     (0 + bounds_residue, (none : Option ℚ)))
          method := "Nelder-Mead"
          xatol := xtol
          fatol := ftol
          disp := display } := by
    unfold cd4_problemE
    rw [hg1, except_ok_bind, hg2, except_ok_bind]
    rfl
  obtain ⟨r, hr⟩ := hmin
    { objective := fun p => obj_fcnE E p target_mean target_sd upper_lim
      x0 := (g1, g2)
      bounds := ((0 + bounds_residue, (none : Option ℚ)),
                 (0 + bounds_residue, (none : Option ℚ)))
      method := "Nelder-Mead"
      xatol := xtol
      fatol := ftol
      disp := display }
    (fun x => objE_ok_of_total E hE x target_mean target_sd upper_lim)
  refine ⟨(r.x.1, r.x.2, r.fval, r), ?_⟩
  unfold cd4_fitterE
  rw [hP, except_ok_bind, hr, except_ok_bind]
  rfl

/-- C9 amended: `fit` performs no up-front validation and has no failure path
of its own; on the degenerate target `fit(0, 0, 0)` it completes and returns
a `FitResult` — no failure indicator is raised — provided the numeric
primitives complete on their arguments (as scipy's do at this input) and the
minimizer fails only by propagating objective failures. -/
theorem c9_amended_degenerate_fit_completes (ε : Type) (E : EModel ε)
    (minimize : NMProblemE ε → Except ε OptimizeResult)
    (hE : TotalModel E)
    (hmin : ∀ P : NMProblemE ε, (∀ x, ∃ v, P.objective x = Except.ok v) →
      ∃ r, minimize P = Except.ok r)
    (bounds_residue xtol ftol : ℚ) (display : Bool) :
    ∃ out, cd4_fitterE E minimize 0 0 0 bounds_residue xtol ftol display = Except.ok out :=
  fitterE_ok_of_total E minimize hE hmin 0 0 0 bounds_residue xtol ftol display

/-- Total (never-failing) concrete instantiation of the fallible primitives,
the `Except`-valued counterpart of `M0`. -/
def EOk : EModel String where
  cdf := fun x _ _ => Except.ok (min 1 (max 0 x))
  ppf := fun p _ _ => Except.ok p
  sqrt := fun q => Except.ok q

theorem EOk_total : TotalModel EOk :=
  ⟨fun x _ _ => ⟨min 1 (max 0 x), rfl⟩, fun p _ _ => ⟨p, rfl⟩, fun q => ⟨q, rfl⟩⟩

/-- A concrete fallible minimizer: like scipy's bounded Nelder-Mead it clips
the initial guess into the lower bounds, then evaluates the objective there,
propagating any failure of that evaluation. -/
def mzClipE : NMProblemE String → Except String OptimizeResult := fun P => do
  let v ← P.objective (max P.bounds.1.1 P.x0.1, max P.bounds.2.1 P.x0.2)
  return ⟨(max P.bounds.1.1 P.x0.1, max P.bounds.2.1 P.x0.2), v, true⟩

theorem mzClipE_ok_of_objective_ok :
    ∀ P : NMProblemE String, (∀ x, ∃ v, P.objective x = Except.ok v) →
      ∃ r, mzClipE P = Except.ok r := by
  intro P h
  obtain ⟨v, hv⟩ := h (max P.bounds.1.1 P.x0.1, max P.bounds.2.1 P.x0.2)
  refine ⟨⟨(max P.bounds.1.1 P.x0.1, max P.bounds.2.1 P.x0.2), v, true⟩, ?_⟩
  unfold mzClipE
  rw [hv, except_ok_bind]
  rfl

/-- C9 is false as stated: at the concrete degenerate input
`fit(target_mean = 0, target_sd = 0, upper = 0)` (with the Python default
residue and tolerances), the fitter completes with a value — `isOkE` of the
run is `true` — instead of surfacing a raised computation failure.  The
degenerate `upper = 0` merely collapses the truncated mass
`p_hi - p_lo` to `0`; the grid over `[p_lo, 1)` and all primitive calls stay
well-defined, so no failure indicator ever arises. -/
theorem c9_counterexample :
    isOkE (cd4_fitterE EOk mzClipE 0 0 0 (1/100000) (1/10000) (1/10000) false) = true := by
  obtain ⟨out, hout⟩ := fitterE_ok_of_total EOk mzClipE EOk_total mzClipE_ok_of_objective_ok
    0 0 0 (1/100000) (1/10000) (1/10000) false
  rw [hout]
  rfl

/-- Witness for the amended C9 at the concrete model `EOk` and minimizer
`mzClipE` with the Python default residue and tolerances. -/
theorem c9_amended_witness :
    ∃ out, cd4_fitterE EOk mzClipE 0 0 0 (1/100000) (1/10000) (1/10000) false =
      Except.ok out :=
  c9_amended_degenerate_fit_completes String EOk mzClipE EOk_total
    mzClipE_ok_of_objective_ok (1/100000) (1/10000) (1/10000) false

/-- A concrete minimizer that reports a non-converged run: it returns the
point `(1, 1)` with objective value `0` and success flag `false`. -/
def mzNoConv : NMProblemE String → Except String OptimizeResult := fun _ =>
  Except.ok ⟨(1, 1), 0, false⟩

/-- The problem record that `cd4_fitter` builds over `EOk` for targets
`(1, 1, 1)` with the Python default residue and tolerances. -/
def POk : NMProblemE String :=
  { objective := fun p => obj_fcnE EOk p 1 1 1
    x0 := (1, 1)
    bounds := ((0 + 1/100000, (none : Option ℚ)), (0 + 1/100000, (none : Option ℚ)))
    method := "Nelder-Mead"
    xatol := 1/10000
    fatol := 1/10000
    disp := false }

/-- Witness for C7 at `EOk`, the non-converging minimizer `mzNoConv`, and
targets `(1, 1, 1)`. -/
theorem c7_witness :
    cd4_fitterE EOk mzNoConv 1 1 1 (1/100000) (1/10000) (1/10000) false =
      Except.ok (1, 1, 0, ⟨(1, 1), 0, false⟩) ∧ (false : Bool) = false :=
  c7_nonconvergence_soft String EOk mzNoConv 1 1 1 (1/100000) (1/10000) (1/10000) false
    POk ⟨(1, 1), 0, false⟩ rfl rfl rfl

/-- A model whose CDF fails (e.g. an interrupted numeric routine), while the
square root used for the initial guess still completes. -/
def EFailCdf : EModel String where
  cdf := fun _ _ _ => Except.error "nan"
  ppf := fun p _ _ => Except.ok p
  sqrt := fun q => Except.ok q

/-- The problem record that `cd4_fitter` builds over `EFailCdf` for targets
`(1, 1, 1)` with the Python default residue and tolerances. -/
def PFailCdf : NMProblemE String :=
  { objective := fun p => obj_fcnE EFailCdf p 1 1 1
    x0 := (1, 1)
    bounds := ((0 + 1/100000, (none : Option ℚ)), (0 + 1/100000, (none : Option ℚ)))
    method := "Nelder-Mead"
    xatol := 1/10000
    fatol := 1/10000
    disp := false }

/-- Witness for C8: over `EFailCdf` the estimator fails with `"nan"`, the
objective forwards exactly that failure, and a fitter run whose minimization
fails with `"nan"` (here because `mzClipE` evaluates that same objective)
surfaces exactly that failure with no partial result. -/
theorem c8_witness :
    obj_fcnE EFailCdf (1, 1) 1 1 1 = Except.error "nan" ∧
    cd4_fitterE EFailCdf mzClipE 1 1 1 (1/100000) (1/10000) (1/10000) false =
      Except.error "nan" :=
  ⟨(c8_error_propagation String EFailCdf mzClipE (1, 1) 1 1 1 (1/100000) (1/10000) (1/10000)
      false "nan").1 rfl,
   (c8_error_propagation String EFailCdf mzClipE (1, 1) 1 1 1 (1/100000) (1/10000) (1/10000)
      false "nan").2 PFailCdf rfl rfl⟩

end CD4
